import Mathlib

/-!
Verification of the TrumpArchive pipeline core (`archive_pipeline.py`).

Shallow embedding conventions:
* Python floats (timestamps, scores, confidences) are modelled as `ℚ`.
* Python strings are `String`; where character-index slicing matters
  (the classifier's sampling policy) the transcript text is a `List Char`.
* Fallible external collaborators (audio download, transcription,
  diarization, the language-model evaluator) are inputs: an
  `Except String _` models "raised an exception with this message",
  `Option` models the explicit `None` returns of the source.
-/

namespace ArchivePipeline

/-- Python `str.strip()`: remove trailing, then leading, whitespace. -/
def pyStrip (s : String) : String :=
  ⟨((s.data.reverse.dropWhile Char.isWhitespace).reverse).dropWhile Char.isWhitespace⟩

/-- Python `str.lower()`, as the lowercased character list of a string. -/
def pyLower (s : String) : List Char :=
  s.data.map Char.toLower

/-- Python `needle in hay` substring containment, `hay` given as a character list. -/
def strIn (needle : String) (hay : List Char) : Prop :=
  needle.data <:+: hay

instance (needle : String) (hay : List Char) : Decidable (strIn needle hay) :=
  inferInstanceAs (Decidable (needle.data <:+: hay))

/-- The keyword list of `filter_trump_videos` (line 175). -/
def trump_keywords : List String :=
  ["trump", "donald trump", "president trump", "former president trump"]

/-- A video descriptor as consumed by the Relevance Filter: only the
`snippet.title` and `snippet.description` fields are read by the scoring. -/
structure VideoDescriptor where
  video_id : String
  title : String
  description : String
  deriving DecidableEq, Repr

/-- The match score of `filter_trump_videos` (lines 171-183): lowercase the
title and the description once, then for each keyword add 0.6 on a title
match and 0.4 on a description match, accumulating over all keywords. -/
def trumpScore (title description : String) : ℚ :=
  let t := pyLower title
  let d := pyLower description
  trump_keywords.foldl
    (fun score keyword =>
      (score + (if strIn keyword t then (0.6 : ℚ) else 0)) +
        (if strIn keyword d then (0.4 : ℚ) else 0))
    0

/-- `filter_trump_videos` (lines 165-189): keep exactly the videos whose
score strictly exceeds the selectivity threshold, in input order. -/
def filter_trump_videos (videos : List VideoDescriptor) (selectivity : ℚ) :
    List VideoDescriptor :=
  videos.filter (fun v => decide (trumpScore v.title v.description > selectivity))

/-- A transcription segment `{start, end, text}` as produced by the
speech-to-text model (whisper `transcription["segments"]` entries). -/
structure TranscriptionSegment where
  start : ℚ
  end' : ℚ
  text : String
  deriving DecidableEq, Repr

/-- A diarization turn `[start, end)` with its anonymous speaker label. -/
structure DiarizationTurn where
  start : ℚ
  end' : ℚ
  speaker : String
  deriving DecidableEq, Repr

/-- An aligned output segment of `process_transcript` (the per-video uuid
field is fresh and data-independent, so it is not modelled). -/
structure AttributedSegment where
  start : ℚ
  end' : ℚ
  speaker : String
  text : String
  deriving DecidableEq, Repr

/-- The transcription result: the full text plus the timed segments. -/
structure TranscriptionResult where
  text : String
  segments : List TranscriptionSegment
  deriving DecidableEq, Repr

/-- The overlap test of line 331: `seg_start <= end_time and seg_end >= start_time`. -/
def overlaps (turn : DiarizationTurn) (seg : TranscriptionSegment) : Prop :=
  seg.start ≤ turn.end' ∧ seg.end' ≥ turn.start

instance (turn : DiarizationTurn) (seg : TranscriptionSegment) :
    Decidable (overlaps turn seg) :=
  inferInstanceAs (Decidable (_ ∧ _))

/-- The accumulated `segment_text` for one diarization turn (lines 325-332):
append `text + " "` for every overlapping transcription segment, in order. -/
def turnText (turn : DiarizationTurn) (segs : List TranscriptionSegment) : String :=
  segs.foldl
    (fun segment_text seg =>
      if overlaps turn seg then segment_text ++ seg.text ++ " " else segment_text)
    ""

/-- One iteration of the turn loop (lines 319-341): emit a segment iff the
accumulated text is non-empty (Python truthiness of `segment_text`),
with `.strip()` applied to the emitted text. -/
def turnSegment (segs : List TranscriptionSegment) (turn : DiarizationTurn) :
    Option AttributedSegment :=
  let segment_text := turnText turn segs
  if segment_text = "" then none
  else some
    { start := turn.start, end' := turn.end', speaker := turn.speaker,
      text := pyStrip segment_text }

/-- The per-turn pass over all diarization turns, in their given order. -/
def turnSegments (turns : List DiarizationTurn) (segs : List TranscriptionSegment) :
    List AttributedSegment :=
  turns.filterMap (turnSegment segs)

/-- The segment construction of `process_transcript` including the fallback
branch (lines 317-351): if the per-turn pass emitted nothing, synthesize a
single segment from time 0 to the last transcription segment's end (0 when
there are no transcription segments) carrying the full transcription text. -/
def alignSegments (turns : List DiarizationTurn) (transcription : TranscriptionResult) :
    List AttributedSegment :=
  let segments := turnSegments turns transcription.segments
  if segments = [] then
    [{ start := 0,
       end' := match transcription.segments.getLast? with
               | some seg => seg.end'
               | none => 0,
       speaker := "SPEAKER_0",
       text := transcription.text }]
  else segments

/-- Spec wording (§4.4), for comparison with `turnText`: join a list of
texts with a single separating space. -/
def spaceJoin : List String → String
  | [] => ""
  | [t] => t
  | t :: u :: ts => t ++ " " ++ spaceJoin (u :: ts)

/-- Spec wording (§4.4): the emitted text for a turn is the single-space
join of the texts of exactly the overlapping transcription segments, in
transcription order, with surrounding whitespace trimmed. -/
def specTurnText (turn : DiarizationTurn) (segs : List TranscriptionSegment) : String :=
  pyStrip (spaceJoin ((segs.filter (fun s => decide (overlaps turn s))).map (·.text)))

/-- Helper for reasoning about `turnText`: join with a trailing space after
every element (the exact shape the source loop accumulates). -/
def tailJoin : List String → String
  | [] => ""
  | t :: ts => t ++ " " ++ tailJoin ts

/-- A parsed evaluator response. The source reads exactly the three
confidence fields during aggregation (lines 257-259); the `reasoning` and
`final_classification` fields of the response are never consumed. -/
structure Evaluation where
  no_commentary_confidence : ℚ
  minimal_commentary_confidence : ℚ
  substantial_commentary_confidence : ℚ
  deriving DecidableEq, Repr

/-- The decision dictionary returned by `evaluate_commentary`. The `error`
field is `some` only on the exception path; `evaluations` is `[]` on the
zero-parsed and error paths (the source dicts omit those keys there). -/
structure CommentaryDecision where
  video_id : String
  commentary_level : String
  confidence : ℚ
  needs_review : Bool
  error : Option String := none
  evaluations : List Evaluation := []
  deriving DecidableEq, Repr

/-- The sampling policy of lines 219-228, on the transcript's characters:
over 3000 characters, take the first 1000, the 1000 centered on the
midpoint (`text[len//2-500 : len//2+500]`), and the last 1000
(`text[-1000:]`); otherwise the whole transcript is the single sample. -/
def sampleSegments (transcript_text : List Char) : List (List Char) :=
  if 3000 < transcript_text.length then
    [transcript_text.take 1000,
     (transcript_text.drop (transcript_text.length / 2 - 500)).take 1000,
     transcript_text.drop (transcript_text.length - 1000)]
  else
    [transcript_text]

/-- Average of the `no_commentary_confidence` fields (line 257). -/
def avg_no_commentary (evaluations : List Evaluation) : ℚ :=
  (evaluations.map (·.no_commentary_confidence)).sum / evaluations.length

/-- Average of the `minimal_commentary_confidence` fields (line 258). -/
def avg_minimal (evaluations : List Evaluation) : ℚ :=
  (evaluations.map (·.minimal_commentary_confidence)).sum / evaluations.length

/-- Average of the `substantial_commentary_confidence` fields (line 259). -/
def avg_substantial (evaluations : List Evaluation) : ℚ :=
  (evaluations.map (·.substantial_commentary_confidence)).sum / evaluations.length

/-- Aggregation of the parsed evaluations (lines 247-283): with zero parsed
samples return the undetermined decision; otherwise pick the strictly
largest averaged dimension via the elif chain (initializing classification
`"undetermined"`, confidence 0), and set `needs_review = confidence < 70`. -/
def aggregate_evaluations (video_id : String) (evaluations : List Evaluation) :
    CommentaryDecision :=
  if evaluations = [] then
    { video_id := video_id, commentary_level := "undetermined",
      confidence := 0, needs_review := true }
  else
    let a := avg_no_commentary evaluations
    let b := avg_minimal evaluations
    let c := avg_substantial evaluations
    let fc : String × ℚ :=
      if a > b ∧ a > c then ("no_commentary", a)
      else if b > a ∧ b > c then ("minimal_commentary", b)
      else if c > a ∧ c > b then ("substantial_commentary", c)
      else ("undetermined", 0)
    { video_id := video_id, commentary_level := fc.1, confidence := fc.2,
      needs_review := decide (fc.2 < 70), evaluations := evaluations }

/-- One candidate video together with the behaviour of its external
collaborators, as consumed by `evaluate_commentary` / `process_transcript`:
`transcript` is the outcome of the download-and-transcribe block
(`Except.error` = an exception, caught at line 285; `none` = no audio
stream, the `return None` of line 204); `evaluator` is the chain call plus
JSON parsing per sample (`none` = a `JSONDecodeError`, line 243);
`alignInput` is the outcome of the externals of `process_transcript`
(`Except.error` = an uncaught exception from diarization/transcription;
`none` = the missing audio file of line 299). -/
structure VideoInput where
  video_id : String
  title : String
  description : String
  transcript : Except String (Option (List Char))
  evaluator : List Char → Option Evaluation
  alignInput : Except String (Option (List DiarizationTurn × TranscriptionResult))

/-- `evaluate_commentary` (lines 191-293): on an exception return the error
decision; with no audio stream return `none`; otherwise sample the
transcript, evaluate each sample, discard unparsable responses, aggregate. -/
def evaluate_commentary (v : VideoInput) : Option CommentaryDecision :=
  match v.transcript with
  | .error e =>
      some { video_id := v.video_id, commentary_level := "error",
             confidence := 0, needs_review := true, error := some e }
  | .ok none => none
  | .ok (some transcript_text) =>
      let segments := sampleSegments transcript_text
      let evaluations := segments.filterMap v.evaluator
      some (aggregate_evaluations v.video_id evaluations)

/-- `process_transcript` (lines 295-357): no try/except — an exception from
the diarization or transcription call propagates; a missing audio file
yields `None`; otherwise the aligned segments. -/
def process_transcript (v : VideoInput) :
    Except String (Option (List AttributedSegment)) :=
  match v.alignInput with
  | .error e => .error e
  | .ok none => .ok none
  | .ok (some (turns, transcription)) => .ok (some (alignSegments turns transcription))

/-- Per-video terminal state in `process_channel`. -/
inductive VideoState where
  | evalFailed
  | skipped
  | alignFailed
  | persisted
  deriving DecidableEq, Repr

/-- The gating condition of lines 402-403. -/
def gate (d : CommentaryDecision) : Prop :=
  d.commentary_level = "substantial_commentary" ∧ d.needs_review = false

instance (d : CommentaryDecision) : Decidable (gate d) :=
  inferInstanceAs (Decidable (_ ∧ _))

/-- The alignment-and-persistence tail of the per-video loop body
(lines 407-429): run `process_transcript`; `None` means `continue` without
persisting; otherwise the video is saved. -/
def alignStage (v : VideoInput) : Except String VideoState :=
  match process_transcript v with
  | .error e => .error e
  | .ok none => .ok .alignFailed
  | .ok (some _) => .ok .persisted

/-- The per-video loop body of `process_channel` (lines 388-429). -/
def process_video (v : VideoInput) : Except String VideoState :=
  match evaluate_commentary v with
  | none => .ok .evalFailed
  | some d => if gate d then .ok .skipped else alignStage v

/-- The per-video loop of `process_channel` over the filtered videos: an
uncaught exception in one body aborts the remaining iterations. -/
def process_channel (videos : List VideoInput) : Except String (List VideoState) :=
  videos.mapM process_video

theorem str_ext {a b : String} (h : a.data = b.data) : a = b :=
  String.ext h

theorem str_append_empty (s : String) : s ++ "" = s :=
  str_ext (by simp [String.data_append])

theorem str_empty_append (s : String) : "" ++ s = s :=
  str_ext (by simp [String.data_append])

theorem str_append_assoc (a b c : String) : a ++ b ++ c = a ++ (b ++ c) :=
  str_ext (by simp [String.data_append])

theorem turnText_foldl (turn : DiarizationTurn) :
    ∀ (segs : List TranscriptionSegment) (acc : String),
      segs.foldl
        (fun segment_text seg =>
          if overlaps turn seg then segment_text ++ seg.text ++ " " else segment_text)
        acc
      = acc ++ tailJoin ((segs.filter (fun s => decide (overlaps turn s))).map (·.text))
  | [], acc => by simp [tailJoin, str_append_empty]
  | seg :: segs, acc => by
    by_cases h : overlaps turn seg
    · rw [List.foldl_cons, if_pos h, turnText_foldl turn segs]
      simp [List.filter_cons, h, tailJoin, str_append_assoc]
    · rw [List.foldl_cons, if_neg h, turnText_foldl turn segs]
      simp [List.filter_cons, h]

theorem turnText_eq (turn : DiarizationTurn) (segs : List TranscriptionSegment) :
    turnText turn segs
      = tailJoin ((segs.filter (fun s => decide (overlaps turn s))).map (·.text)) := by
  rw [turnText, turnText_foldl, str_empty_append]

theorem pyStrip_append_space (s : String) : pyStrip (s ++ " ") = pyStrip s := by
  apply str_ext
  have hws : Char.isWhitespace ' ' = true := by decide
  have hd : (s ++ " ").data = s.data ++ [' '] := by
    rw [String.data_append]
  simp [pyStrip, hd, List.reverse_append, List.dropWhile_cons, hws]

theorem tailJoin_eq_spaceJoin :
    ∀ (l : List String), l ≠ [] → tailJoin l = spaceJoin l ++ " "
  | [t], _ => by
    rw [tailJoin, tailJoin, spaceJoin, str_append_assoc, str_append_empty]
  | t :: u :: ts, _ => by
    rw [tailJoin, tailJoin_eq_spaceJoin (u :: ts) (by simp), spaceJoin,
      str_append_assoc, str_append_assoc, str_append_assoc]

theorem pyStrip_tailJoin (l : List String) :
    pyStrip (tailJoin l) = pyStrip (spaceJoin l) := by
  cases l with
  | nil => rfl
  | cons t ts => rw [tailJoin_eq_spaceJoin _ (by simp), pyStrip_append_space]

theorem turnText_ne_empty {turn : DiarizationTurn} {segs : List TranscriptionSegment}
    (h : turnText turn segs ≠ "") : ∃ s ∈ segs, overlaps turn s := by
  by_contra hc
  push_neg at hc
  have hf : segs.filter (fun s => decide (overlaps turn s)) = [] := by
    rw [List.filter_eq_nil_iff]
    intro a ha
    simpa using hc a ha
  rw [turnText_eq, hf] at h
  exact h rfl

theorem trumpScore_eq_sum (title description : String) :
    trumpScore title description =
      (trump_keywords.map (fun kw =>
        (if strIn kw (pyLower title) then (0.6 : ℚ) else 0) +
          (if strIn kw (pyLower description) then (0.4 : ℚ) else 0))).sum := by
  simp only [trumpScore, trump_keywords, List.foldl_cons, List.foldl_nil,
    List.map_cons, List.map_nil, List.sum_cons, List.sum_nil]
  ring

theorem strIn_mono_right {n : String} {h : List Char} (h' : List Char)
    (hin : strIn n h) : strIn n (h ++ h') :=
  hin.trans ⟨[], h', by simp⟩

theorem strIn_mono_left {n : String} {h : List Char} (h' : List Char)
    (hin : strIn n h) : strIn n (h' ++ h) :=
  hin.trans ⟨h', [], by simp⟩

theorem pyLower_append (a b : String) :
    pyLower (a ++ b) = pyLower a ++ pyLower b := by
  simp [pyLower, String.data_append]

theorem ite_nonneg_mono {c1 c2 : Prop} [Decidable c1] [Decidable c2] {x : ℚ}
    (hx : 0 ≤ x) (h : c1 → c2) :
    (if c1 then x else 0) ≤ (if c2 then x else 0) := by
  by_cases h1 : c1
  · rw [if_pos h1, if_pos (h h1)]
  · rw [if_neg h1]
    by_cases h2 : c2 <;> simp [h2, hx]

theorem trumpScore_mono {t1 t2 d1 d2 : String}
    (ht : ∀ kw, strIn kw (pyLower t1) → strIn kw (pyLower t2))
    (hd : ∀ kw, strIn kw (pyLower d1) → strIn kw (pyLower d2)) :
    trumpScore t1 d1 ≤ trumpScore t2 d2 := by
  rw [trumpScore_eq_sum, trumpScore_eq_sum]
  refine List.sum_le_sum ?_
  intro kw _
  exact add_le_add (ite_nonneg_mono (by norm_num) (ht kw))
    (ite_nonneg_mono (by norm_num) (hd kw))

theorem aggregate_evaluations_evaluations (vid : String) (evals : List Evaluation) :
    (aggregate_evaluations vid evals).evaluations = evals := by
  rw [aggregate_evaluations]
  by_cases h : evals = []
  · rw [if_pos h, h]
  · rw [if_neg h]

/-- C2: for every diarization turn and transcription segment list, the
aligner's text for the turn equals the single-space join, trimmed, of the
texts of exactly the segments passing the inclusive overlap test
`ss <= te ∧ se >= ts`, in transcription order; and on turn `[10,20)` with
segments `[{5,12,"a"},{15,18,"b"},{25,30,"c"}]` the emitted text is `"a b"`. -/
theorem c2_turn_text_overlap :
    (∀ (turn : DiarizationTurn) (segs : List TranscriptionSegment),
        pyStrip (turnText turn segs) = specTurnText turn segs)
    ∧ turnSegment [⟨5, 12, "a"⟩, ⟨15, 18, "b"⟩, ⟨25, 30, "c"⟩] ⟨10, 20, "SPEAKER_00"⟩
        = some ⟨10, 20, "SPEAKER_00", "a b"⟩ := by
  constructor
  · intro turn segs
    rw [turnText_eq, pyStrip_tailJoin, specTurnText]
  · decide

/-- C3 counterexample: on an empty diarization sequence and an empty
transcription, the aligner emits the fallback segment with `start = end = 0`
and empty text, contradicting `start < end` and text non-emptiness. -/
theorem c3_counterexample :
    alignSegments [] ⟨"", []⟩
      = [{ start := 0, end' := 0, speaker := "SPEAKER_0", text := "" }]
    ∧ ¬((0 : ℚ) < 0) := by
  constructor
  · rfl
  · norm_num

/-- C3 (amended): each per-turn emitted AttributedSegment carries the bounds
and speaker of a turn that overlaps at least one transcription segment — a
turn with no overlapping segment emits nothing; but `start < end` and text
non-emptiness do not hold of emitted segments in general. -/
theorem c3_turn_segments_overlap (turns : List DiarizationTurn)
    (segs : List TranscriptionSegment) (a : AttributedSegment)
    (h : a ∈ turnSegments turns segs) :
    ∃ t ∈ turns, a.start = t.start ∧ a.end' = t.end' ∧ a.speaker = t.speaker ∧
      ∃ s ∈ segs, overlaps t s := by
  rw [turnSegments, List.mem_filterMap] at h
  obtain ⟨t, ht, hsome⟩ := h
  simp only [turnSegment] at hsome
  by_cases hempty : turnText t segs = ""
  · rw [if_pos hempty] at hsome
    cases hsome
  · rw [if_neg hempty] at hsome
    obtain ⟨s, hs, hov⟩ := turnText_ne_empty hempty
    have ha := Option.some.inj hsome
    subst ha
    exact ⟨t, ht, rfl, rfl, rfl, s, hs, hov⟩

/-- Concrete turn list for the C3 witness. -/
def c3Turns : List DiarizationTurn := [⟨10, 20, "S1"⟩]

/-- Concrete transcription segments for the C3 witness. -/
def c3Segs : List TranscriptionSegment := [⟨5, 12, "hi"⟩]

/-- Witness for the amended C3 at a concrete emitted segment. -/
theorem c3_turn_segments_overlap_witness :
    ∃ t ∈ c3Turns, (⟨10, 20, "S1", "hi"⟩ : AttributedSegment).start = t.start ∧
      (⟨10, 20, "S1", "hi"⟩ : AttributedSegment).end' = t.end' ∧
      (⟨10, 20, "S1", "hi"⟩ : AttributedSegment).speaker = t.speaker ∧
      ∃ s ∈ c3Segs, overlaps t s :=
  c3_turn_segments_overlap c3Turns c3Segs _ (by decide)

/-- C4: the Relevance Filter returns a sublist of its input, keeps a
descriptor iff its score strictly exceeds the selectivity, and the score is
the sum over the fixed keyword set of 0.6 per case-insensitive title match
plus 0.4 per case-insensitive description match. -/
theorem c4_filter_subset_threshold (videos : List VideoDescriptor) (s : ℚ) :
    (filter_trump_videos videos s).Sublist videos
    ∧ (∀ v, v ∈ filter_trump_videos videos s ↔
        v ∈ videos ∧ trumpScore v.title v.description > s)
    ∧ (∀ title description, trumpScore title description =
        (trump_keywords.map (fun kw =>
          (if strIn kw (pyLower title) then (0.6 : ℚ) else 0) +
            (if strIn kw (pyLower description) then (0.4 : ℚ) else 0))).sum) := by
  refine ⟨List.filter_sublist _, fun v => ?_, trumpScore_eq_sum⟩
  simp [filter_trump_videos, List.mem_filter]

/-- C5: on an empty diarization sequence, or whenever the per-turn pass
emits zero segments, the aligner outputs exactly one synthetic segment from
0 to the last transcription segment's end (0 for an empty transcription),
with the default speaker label and the full transcription text. -/
theorem c5_fallback (turns : List DiarizationTurn) (tr : TranscriptionResult)
    (h : turns = [] ∨ turnSegments turns tr.segments = []) :
    alignSegments turns tr =
      [{ start := 0,
         end' := match tr.segments.getLast? with
                 | some seg => seg.end'
                 | none => 0,
         speaker := "SPEAKER_0",
         text := tr.text }] := by
  have hempty : turnSegments turns tr.segments = [] := by
    rcases h with h | h
    · rw [h]; rfl
    · exact h
  simp [alignSegments, hempty]

/-- Witness for C5 at a concrete transcription with empty diarization. -/
theorem c5_fallback_witness :
    alignSegments [] ⟨"hello world", [⟨0, 5, "hello world"⟩]⟩
      = [⟨0, 5, "SPEAKER_0", "hello world"⟩] :=
  c5_fallback [] ⟨"hello world", [⟨0, 5, "hello world"⟩]⟩ (Or.inl rfl)

/-- C9 counterexample: inserting the keyword `"trump"` into the interior of
the title `"donald trump"` (between `"donald"` and `" trump"`) destroys the
`"donald trump"` match and strictly lowers the score, from 1.2 to 0.6. -/
theorem c9_counterexample :
    "donaldtrump trump" = "donald" ++ "trump" ++ " trump"
    ∧ "donald trump" = "donald" ++ " trump"
    ∧ "trump" ∈ trump_keywords
    ∧ trumpScore "donaldtrump trump" "" < trumpScore "donald trump" "" := by
  refine ⟨rfl, rfl, by decide, ?_⟩
  have hA : strIn "trump" (pyLower "donaldtrump trump") := by decide
  have hB : ¬ strIn "donald trump" (pyLower "donaldtrump trump") := by decide
  have hC : ¬ strIn "president trump" (pyLower "donaldtrump trump") := by decide
  have hD : ¬ strIn "former president trump" (pyLower "donaldtrump trump") := by decide
  have hE : strIn "trump" (pyLower "donald trump") := by decide
  have hF : strIn "donald trump" (pyLower "donald trump") := by decide
  have hG : ¬ strIn "president trump" (pyLower "donald trump") := by decide
  have hH : ¬ strIn "former president trump" (pyLower "donald trump") := by decide
  have hN1 : ¬ strIn "trump" (pyLower "") := by decide
  have hN2 : ¬ strIn "donald trump" (pyLower "") := by decide
  have hN3 : ¬ strIn "president trump" (pyLower "") := by decide
  have hN4 : ¬ strIn "former president trump" (pyLower "") := by decide
  rw [trumpScore_eq_sum, trumpScore_eq_sum]
  simp only [trump_keywords, List.map_cons, List.map_nil, List.sum_cons, List.sum_nil,
    hA, hB, hC, hD, hE, hF, hG, hH, hN1, hN2, hN3, hN4, if_true, if_false,
    iff_true, iff_false, if_neg, not_false_eq_true, ite_eq_right_iff]
  norm_num

/-- C9 (amended): appending or prepending any string — in particular an
occurrence of any keyword — to the title or to the description never
decreases the score; only interior insertion can decrease it. -/
theorem c9_score_monotone (title description u : String) :
    trumpScore title description ≤ trumpScore (title ++ u) description
    ∧ trumpScore title description ≤ trumpScore (u ++ title) description
    ∧ trumpScore title description ≤ trumpScore title (description ++ u)
    ∧ trumpScore title description ≤ trumpScore title (u ++ description) := by
  refine ⟨?_, ?_, ?_, ?_⟩
  · exact trumpScore_mono
      (fun kw h => by rw [pyLower_append]; exact strIn_mono_right _ h)
      (fun kw h => h)
  · exact trumpScore_mono
      (fun kw h => by rw [pyLower_append]; exact strIn_mono_left _ h)
      (fun kw h => h)
  · exact trumpScore_mono (fun kw h => h)
      (fun kw h => by rw [pyLower_append]; exact strIn_mono_right _ h)
  · exact trumpScore_mono (fun kw h => h)
      (fun kw h => by rw [pyLower_append]; exact strIn_mono_left _ h)

/-- C1: for a video whose evaluation produced a CommentaryDecision, the
orchestrator skips the video (no alignment, no persistence) iff the
decision is `substantial_commentary` with `needs_review = false`; any other
decision outcome proceeds to the alignment stage. -/
theorem c1_gate (v : VideoInput) (d : CommentaryDecision)
    (h : evaluate_commentary v = some d) :
    (process_video v = .ok .skipped ↔
      (d.commentary_level = "substantial_commentary" ∧ d.needs_review = false))
    ∧ (¬(d.commentary_level = "substantial_commentary" ∧ d.needs_review = false) →
        process_video v = alignStage v) := by
  have halign : alignStage v ≠ .ok .skipped := by
    unfold alignStage
    split <;> simp
  have hpv : process_video v = if gate d then .ok .skipped else alignStage v := by
    unfold process_video
    rw [h]
  refine ⟨⟨fun hs => ?_, fun hg => ?_⟩, fun hg => ?_⟩
  · by_cases hg : gate d
    · exact hg
    · rw [hpv, if_neg hg] at hs
      exact absurd hs halign
  · have hg' : gate d := hg
    rw [hpv, if_pos hg']
  · have hg' : ¬ gate d := hg
    rw [hpv, if_neg hg']

/-- Concrete video for the C1 witness: a confidently substantial
classification. -/
def substantialVideo : VideoInput :=
  { video_id := "v-sub", title := "t", description := "",
    transcript := .ok (some ['x']),
    evaluator := fun _ => some ⟨0, 0, 100⟩,
    alignInput := .ok none }

/-- The decision of `substantialVideo`, evaluated. -/
theorem substantialVideo_decision :
    aggregate_evaluations "v-sub" [⟨0, 0, 100⟩]
      = { video_id := "v-sub", commentary_level := "substantial_commentary",
          confidence := 100, needs_review := false,
          evaluations := [⟨0, 0, 100⟩] } := by
  norm_num [aggregate_evaluations, avg_no_commentary, avg_minimal, avg_substantial,
    decide_eq_false_iff_not]

/-- Witness for C1: the gate fires and the video's state is `skipped`. -/
theorem c1_gate_witness : process_video substantialVideo = Except.ok VideoState.skipped :=
  (c1_gate substantialVideo (aggregate_evaluations "v-sub" [⟨0, 0, 100⟩]) rfl).1.mpr
    (by rw [substantialVideo_decision]; exact ⟨rfl, rfl⟩)

/-- Concrete video for the C6 counterexample: the classifier stage is fine
but the alignment stage raises. -/
def boomVideo : VideoInput :=
  { video_id := "v-boom", title := "t", description := "",
    transcript := .ok (some ['x']),
    evaluator := fun _ => none,
    alignInput := .error "diarization boom" }

/-- Concrete healthy sibling video for the C6 counterexample. -/
def okVideo : VideoInput :=
  { video_id := "v-ok", title := "t", description := "",
    transcript := .ok (some ['x']),
    evaluator := fun _ => none,
    alignInput := .ok none }

/-- C6 counterexample: an exception raised in the alignment stage of one
video is not caught — it aborts the channel loop, so the healthy sibling
video (which alone would be processed) is never reached. -/
theorem c6_counterexample :
    process_channel [boomVideo, okVideo] = Except.error "diarization boom"
    ∧ process_channel [okVideo] = Except.ok [VideoState.alignFailed] := by
  exact ⟨rfl, rfl⟩

/-- C6 (amended): an exception during one video's acquisition,
transcription or classification (the evaluator try-block) is caught and
recorded as the decision `{commentary_level: error, needs_review: true,
error: <message>}`, and the channel loop continues with the next video;
only an alignment-stage exception propagates and aborts the loop. -/
theorem c6_eval_error_caught (v : VideoInput) (vs : List VideoInput) (e : String)
    (ht : v.transcript = .error e) (ha : v.alignInput = .ok none) :
    evaluate_commentary v
      = some { video_id := v.video_id, commentary_level := "error",
               confidence := 0, needs_review := true, error := some e }
    ∧ process_channel (v :: vs)
        = (process_channel vs).map (fun states => VideoState.alignFailed :: states) := by
  have hec : evaluate_commentary v
      = some { video_id := v.video_id, commentary_level := "error",
               confidence := 0, needs_review := true, error := some e } := by
    unfold evaluate_commentary
    rw [ht]
  refine ⟨hec, ?_⟩
  have hng : ¬ gate ({ video_id := v.video_id,
                       commentary_level := "error",
                       confidence := 0,
                       needs_review := true,
                       error := some e } : CommentaryDecision) :=
    fun hg => Bool.noConfusion hg.2
  have hpv : process_video v = .ok .alignFailed := by
    simp only [process_video, hec]
    rw [if_neg hng]
    simp only [alignStage, process_transcript, ha]
  rw [process_channel, List.mapM_cons, hpv, process_channel]
  cases hrest : vs.mapM process_video with
  | error e2 => rfl
  | ok states => rfl

/-- Concrete video for the C6 witness: audio acquisition raises. -/
def errVideo : VideoInput :=
  { video_id := "v-err", title := "t", description := "",
    transcript := .error "download failed",
    evaluator := fun _ => none,
    alignInput := .ok none }

/-- Witness for the amended C6: the acquisition failure is recorded and the
(singleton) channel run completes. -/
theorem c6_eval_error_caught_witness :
    evaluate_commentary errVideo
      = some { video_id := "v-err", commentary_level := "error", confidence := 0,
               needs_review := true, error := some "download failed" }
    ∧ process_channel [errVideo] = Except.ok [VideoState.alignFailed] := by
  have h := c6_eval_error_caught errVideo [] "download failed" rfl rfl
  exact ⟨h.1, by rw [h.2]; rfl⟩

/-- C7: an evaluator response that fails to parse is discarded without
failing the video (a decision is still produced, built from exactly the
parsed samples), and if zero samples parse the decision is
`{undetermined, confidence 0, needs_review true}`. -/
theorem c7_parse_failures (v : VideoInput) (t : List Char)
    (ht : v.transcript = .ok (some t)) :
    (∃ d, evaluate_commentary v = some d
        ∧ d.evaluations = (sampleSegments t).filterMap v.evaluator)
    ∧ ((sampleSegments t).filterMap v.evaluator = [] →
        evaluate_commentary v
          = some { video_id := v.video_id, commentary_level := "undetermined",
                   confidence := 0, needs_review := true }) := by
  have hev : evaluate_commentary v
      = some (aggregate_evaluations v.video_id ((sampleSegments t).filterMap v.evaluator)) := by
    unfold evaluate_commentary
    rw [ht]
  constructor
  · exact ⟨aggregate_evaluations v.video_id ((sampleSegments t).filterMap v.evaluator),
      hev, aggregate_evaluations_evaluations _ _⟩
  · intro hz
    rw [hev, hz]
    rfl

/-- Concrete video for the C7 witness: every evaluator response is
unparsable. -/
def parseFailVideo : VideoInput :=
  { video_id := "v-pf", title := "t", description := "",
    transcript := .ok (some ['h', 'i']),
    evaluator := fun _ => none,
    alignInput := .ok none }

/-- Witness for C7: all samples fail to parse and the decision is the
undetermined one. -/
theorem c7_parse_failures_witness :
    evaluate_commentary parseFailVideo
      = some { video_id := "v-pf", commentary_level := "undetermined",
               confidence := 0, needs_review := true } :=
  (c7_parse_failures parseFailVideo ['h', 'i'] rfl).2 rfl

/-- C8: a transcript longer than 3000 characters yields exactly three
1000-character samples — the first 1000 characters, the 1000 centred on the
midpoint, and the last 1000 — and any other transcript is itself the single
sample. -/
theorem c8_sampling (t : List Char) :
    (3000 < t.length →
      sampleSegments t
        = [t.take 1000, (t.drop (t.length / 2 - 500)).take 1000,
           t.drop (t.length - 1000)]
      ∧ (sampleSegments t).length = 3
      ∧ (t.take 1000).length = 1000
      ∧ ((t.drop (t.length / 2 - 500)).take 1000).length = 1000
      ∧ (t.drop (t.length - 1000)).length = 1000)
    ∧ (¬ 3000 < t.length → sampleSegments t = [t]) := by
  constructor
  · intro h
    rw [sampleSegments, if_pos h]
    refine ⟨rfl, rfl, ?_, ?_, ?_⟩
    · simp [List.length_take]
      omega
    · simp [List.length_take, List.length_drop]
      omega
    · simp [List.length_drop]
      omega
  · intro h
    rw [sampleSegments, if_neg h]

/-- Witness for C8 on a concrete 3001-character transcript. -/
theorem c8_sampling_witness :
    (sampleSegments (List.replicate 3001 'a')).length = 3
    ∧ ((List.replicate 3001 'a').take 1000).length = 1000 := by
  have h := (c8_sampling (List.replicate 3001 'a')).1
    (by rw [List.length_replicate]; omega)
  exact ⟨h.2.1, h.2.2.1⟩

/-- C10: with at least one parsed sample and no averaged dimension strictly
above both others, the classifier returns `undetermined` with confidence 0
and `needs_review` true. -/
theorem c10_tie_undetermined (vid : String) (evals : List Evaluation)
    (hne : evals ≠ [])
    (h1 : ¬(avg_no_commentary evals > avg_minimal evals
        ∧ avg_no_commentary evals > avg_substantial evals))
    (h2 : ¬(avg_minimal evals > avg_no_commentary evals
        ∧ avg_minimal evals > avg_substantial evals))
    (h3 : ¬(avg_substantial evals > avg_no_commentary evals
        ∧ avg_substantial evals > avg_minimal evals)) :
    aggregate_evaluations vid evals
      = { video_id := vid, commentary_level := "undetermined", confidence := 0,
          needs_review := true, evaluations := evals } := by
  rw [aggregate_evaluations, if_neg hne]
  simp only [if_neg h1, if_neg h2, if_neg h3]
  norm_num

/-- Witness for C10: a single sample with a three-way tie of 50s. -/
theorem c10_tie_undetermined_witness :
    aggregate_evaluations "v" [⟨50, 50, 50⟩]
      = { video_id := "v", commentary_level := "undetermined", confidence := 0,
          needs_review := true, evaluations := [⟨50, 50, 50⟩] } := by
  have havg : avg_no_commentary [⟨50, 50, 50⟩] = 50
      ∧ avg_minimal [⟨50, 50, 50⟩] = 50
      ∧ avg_substantial [⟨50, 50, 50⟩] = 50 := by
    norm_num [avg_no_commentary, avg_minimal, avg_substantial]
  exact c10_tie_undetermined "v" [⟨50, 50, 50⟩] (by simp)
    (by rw [havg.1, havg.2.1, havg.2.2]; simp)
    (by rw [havg.1, havg.2.1, havg.2.2]; simp)
    (by rw [havg.1, havg.2.1, havg.2.2]; simp)

end ArchivePipeline
